import Mathlib

/-! Verification of the OpenSky ingestion pipeline (`src/01_fetch_opensky.py`).

We shallowly embed the Python code that the specification's claims are
about: the record normalizer and batch writer `insert_states`, and the
multi-snapshot loop controller `fetch_many_opensky_snapshots`.

Python runtime values that flow through the pipeline are modelled by the
inductive type `PyVal`.  The DuckDB table `states_raw` is modelled as a
list of rows (`DB`), a row being a list of `PyVal` column values.
Exceptions are modelled with `Except`; the network fetch is a parameter
of the loop (a stub function from the cycle index to a fetch outcome),
and the inter-cycle `time.sleep` is modelled by counting its invocations.
-/

namespace OpenSky

/-- A Python runtime value, as delivered by the OpenSky JSON payload:
`None`, booleans, integers, strings, floats (modelled as rationals;
the pipeline only passes them through), and lists. -/
inductive PyVal where
  | none  : PyVal
  | bool  : Bool → PyVal
  | int   : Int → PyVal
  | str   : String → PyVal
  | float : Rat → PyVal
  | list  : List PyVal → PyVal

/-- Python truthiness (`bool(v)` / `if v:`): `None`, `False`, `0`, `""`,
`0.0` and `[]` are falsy, everything else is truthy. -/
def PyVal.truthy : PyVal → Bool
  | .none => false
  | .bool b => b
  | .int n => n != 0
  | .str s => !s.isEmpty
  | .float q => q != 0
  | .list xs => !xs.isEmpty

/-- Python `v is None`. -/
def PyVal.isNone : PyVal → Bool
  | .none => true
  | _ => false

/-- Python `isinstance(v, int)`: in Python, `bool` is a subclass of `int`,
so booleans also satisfy this check. -/
def PyVal.isInstInt : PyVal → Bool
  | .int _ => true
  | .bool _ => true
  | _ => false

/-- Exceptions raised by the embedded code: `ValueError` (the
`ValidationError` of the spec, raised on an invalid `snapshot_time`),
`AttributeError` (raised by `.strip()` on a truthy non-string), and
`RequestError` (a `requests` network/HTTP/parse failure raised by the
fetch task, the spec's `FetchError`). -/
inductive PyErr where
  | valueError : PyErr
  | attributeError : PyErr
  | requestError : PyErr

/-- The durable store: the `states_raw` DuckDB table, a list of rows in
insertion order. -/
structure DB where
  states_raw : List (List PyVal)

/-- Indexing `s[i]` under the guarantee `i < s.length` (the code only indexes
records after checking `len(s) >= 17`). -/
def pyGet (s : List PyVal) (i : Nat) : PyVal :=
  s.getD i PyVal.none

/-- Python `s[1].strip() if s[1] else None` — the callsign normalization:
a falsy raw value (None or the empty string) becomes `None`; a truthy
string is whitespace-trimmed; a truthy non-string raises
`AttributeError` (no `.strip()` method). -/
def normCallsign (v : PyVal) : Except PyErr PyVal :=
  if v.truthy then
    match v with
    | .str s => .ok (.str s.trim)
    | _ => .error PyErr.attributeError
  else
    .ok PyVal.none

/-- Python `bool(v) if v is not None else None` — the tri-state boolean
coercion applied to `on_ground` (raw index 8) and `spi` (raw index 15). -/
def normBool : PyVal → PyVal
  | .none => PyVal.none
  | v => .bool v.truthy

/-- The tuple appended for one accepted raw record `s`
(lines 116–134 of `01_fetch_opensky.py`): `snapshot_time` first, then
the fixed positional mapping of the raw fields, with raw index 12
skipped (the code reads `s[0] .. s[11]` and then `s[13] .. s[16]`). -/
def normalizeRecord (snapshot_time : PyVal) (s : List PyVal) :
    Except PyErr (List PyVal) := do
  let callsign ← normCallsign (pyGet s 1)
  pure [ snapshot_time,
         pyGet s 0,
         callsign,
         pyGet s 2,
         pyGet s 3,
         pyGet s 4,
         pyGet s 5,
         pyGet s 6,
         pyGet s 7,
         normBool (pyGet s 8),
         pyGet s 9,
         pyGet s 10,
         pyGet s 11,
         pyGet s 13,
         pyGet s 14,
         normBool (pyGet s 15),
         pyGet s 16 ]

/-- The per-record acceptance test of the normalizer:
`isinstance(s, list) and len(s) >= 17`. -/
def recordOk : PyVal → Bool
  | .list s => decide (17 ≤ s.length)
  | _ => false

/-- The row-building loop of `insert_states` (lines 110–134): walks the
raw `states` in order, silently skipping entries that are not lists of
at least 17 elements, and normalizes the accepted ones.  An exception
while normalizing an accepted record propagates immediately. -/
def buildRows (snapshot_time : PyVal) : List PyVal → Except PyErr (List (List PyVal))
  | [] => .ok []
  | s :: rest =>
    match s with
    | .list l =>
      if l.length < 17 then buildRows snapshot_time rest
      else do
        let row ← normalizeRecord snapshot_time l
        let rows ← buildRows snapshot_time rest
        pure (row :: rows)
    | _ => buildRows snapshot_time rest

/-- Task `insert_states(db_path, snapshot_time, states)`: validates the
timestamp (`snapshot_time is None or not isinstance(snapshot_time, int)`
raises `ValueError`), returns the current row count without writing when
`states` is empty, and otherwise builds the normalized rows and appends
them in one bulk insert, returning the table's total row count after
the insert.  The first component of the result is the store state after
the call (unchanged when an exception is raised: every raise in the
source happens before `executemany`). -/
def insert_states (db : DB) (snapshot_time : PyVal) (states : List PyVal) :
    DB × Except PyErr Nat :=
  if snapshot_time.isNone || !snapshot_time.isInstInt then
    (db, .error PyErr.valueError)
  else if states.isEmpty then
    (db, .ok db.states_raw.length)
  else
    match buildRows snapshot_time states with
    | .error e => (db, .error e)
    | .ok rows => (⟨db.states_raw ++ rows⟩, .ok (db.states_raw ++ rows).length)

/-- Task `init_db()`: drops any pre-existing `states_raw` table and creates a
fresh empty one (destructive reset, lines 22–47). -/
def init_db (_db : DB) : DB := ⟨[]⟩

/-- The loop body of `fetch_many_opensky_snapshots` over a list of
remaining cycle indices: each iteration fetches (the fetch is a stub
parameter mapping the cycle index to an outcome), inserts, and — except
after the last cycle (`i < num_snapshots - 1`) — sleeps; `sleeps` counts
the `time.sleep` invocations.  Any exception terminates the loop at
once, leaving the store as it was at that point. -/
def runIdx (fetch : Nat → Except PyErr (PyVal × List PyVal)) (num_snapshots : Nat) :
    List Nat → DB → Nat → Nat → DB × Except PyErr (Nat × Nat)
  | [], db, total, sleeps => (db, .ok (total, sleeps))
  | i :: rest, db, _total, sleeps =>
    match fetch i with
    | .error e => (db, .error e)
    | .ok (snapshot_time, states) =>
      match insert_states db snapshot_time states with
      | (db1, .error e) => (db1, .error e)
      | (db1, .ok total1) =>
        let sleeps1 := if i < num_snapshots - 1 then sleeps + 1 else sleeps
        runIdx fetch num_snapshots rest db1 total1 sleeps1

/-- Flow `fetch_many_opensky_snapshots(num_snapshots, sleep_seconds)`
(lines 176–213): initializes the store (destructive reset), then runs
the fetch→insert→sleep loop for cycle indices `0 .. num_snapshots - 1`
starting from `total_rows = 0`.  Returns the final store together with
either the propagated exception or `(total_rows, sleep count)`. -/
def fetch_many_opensky_snapshots (db : DB)
    (fetch : Nat → Except PyErr (PyVal × List PyVal))
    (num_snapshots : Nat) (_sleep_seconds : Nat) :
    DB × Except PyErr (Nat × Nat) :=
  runIdx fetch num_snapshots (List.range num_snapshots) (init_db db) 0 0

/-! Basic lemmas about the embedded operations. -/

theorem bindErr {α β : Type} (e : PyErr) (f : α → Except PyErr β) :
    (Except.error e >>= f) = Except.error e := rfl

theorem bindOk {α β : Type} (a : α) (f : α → Except PyErr β) :
    (Except.ok a >>= f) = f a := rfl

theorem pureOk {α : Type} (a : α) : (pure a : Except PyErr α) = Except.ok a := rfl

/-- An error raised by the callsign normalization is always
`AttributeError`. -/
theorem normCallsign_error_eq (v : PyVal) (e : PyErr)
    (h : normCallsign v = Except.error e) : e = PyErr.attributeError := by
  unfold normCallsign at h
  split at h
  · cases v <;> simp_all
  · simp at h

/-- Inversion principle for a successful record normalization: the row
is exactly the 17-element tuple built by the code. -/
theorem normalizeRecord_ok_elim (st : PyVal) (s row : List PyVal)
    (h : normalizeRecord st s = Except.ok row) :
    ∃ c, normCallsign (pyGet s 1) = Except.ok c ∧
      row = [st, pyGet s 0, c, pyGet s 2, pyGet s 3, pyGet s 4, pyGet s 5,
             pyGet s 6, pyGet s 7, normBool (pyGet s 8), pyGet s 9, pyGet s 10,
             pyGet s 11, pyGet s 13, pyGet s 14, normBool (pyGet s 15),
             pyGet s 16] := by
  unfold normalizeRecord at h
  cases hc : normCallsign (pyGet s 1) with
  | error e => rw [hc, bindErr] at h; simp at h
  | ok c =>
    rw [hc, bindOk, pureOk] at h
    simp at h
    exact ⟨c, rfl, h.symm⟩

/-- An error raised by a record normalization is always
`AttributeError`. -/
theorem normalizeRecord_error_eq (st : PyVal) (s : List PyVal) (e : PyErr)
    (h : normalizeRecord st s = Except.error e) : e = PyErr.attributeError := by
  unfold normalizeRecord at h
  cases hc : normCallsign (pyGet s 1) with
  | error e2 =>
    rw [hc, bindErr] at h
    simp at h
    exact h ▸ normCallsign_error_eq _ _ hc
  | ok c =>
    rw [hc, bindOk, pureOk] at h
    simp at h

/-- Reading any position other than the one overwritten by `List.set`
is unchanged. -/
theorem pyGet_set_ne (s : List PyVal) (v : PyVal) (i j : Nat) (h : i ≠ j) :
    pyGet (List.set s i v) j = pyGet s j := by
  simp [pyGet, List.getD_eq_getElem?_getD, List.getElem?_set_ne h]

/-- The normalized row is independent of raw index 12: the code never
reads `s[12]`. -/
theorem normalizeRecord_set12 (st : PyVal) (s : List PyVal) (v : PyVal) :
    normalizeRecord st (List.set s 12 v) = normalizeRecord st s := by
  unfold normalizeRecord
  rw [pyGet_set_ne s v 12 0 (by decide), pyGet_set_ne s v 12 1 (by decide),
      pyGet_set_ne s v 12 2 (by decide), pyGet_set_ne s v 12 3 (by decide),
      pyGet_set_ne s v 12 4 (by decide), pyGet_set_ne s v 12 5 (by decide),
      pyGet_set_ne s v 12 6 (by decide), pyGet_set_ne s v 12 7 (by decide),
      pyGet_set_ne s v 12 8 (by decide), pyGet_set_ne s v 12 9 (by decide),
      pyGet_set_ne s v 12 10 (by decide), pyGet_set_ne s v 12 11 (by decide),
      pyGet_set_ne s v 12 13 (by decide), pyGet_set_ne s v 12 14 (by decide),
      pyGet_set_ne s v 12 15 (by decide), pyGet_set_ne s v 12 16 (by decide)]

/-- A record failing the acceptance test is skipped: it contributes
nothing to the built rows and raises nothing. -/
theorem buildRows_skip (st s : PyVal) (rest : List PyVal)
    (h : recordOk s = false) :
    buildRows st (s :: rest) = buildRows st rest := by
  cases s with
  | list l =>
    have hl : l.length < 17 := by
      simp [recordOk] at h
      omega
    simp [buildRows, hl]
  | none => simp [buildRows]
  | bool b => simp [buildRows]
  | int n => simp [buildRows]
  | str s => simp [buildRows]
  | float q => simp [buildRows]

/-- An accepted record unfolds `buildRows` to the normalize-then-recurse
chain. -/
theorem buildRows_accept (st : PyVal) (l : List PyVal) (rest : List PyVal)
    (h : ¬ l.length < 17) :
    buildRows st (PyVal.list l :: rest) =
      (normalizeRecord st l >>= fun row =>
        buildRows st rest >>= fun rows => pure (row :: rows)) := by
  simp [buildRows, h]

/-- An error raised by the row-building loop is always
`AttributeError` (the only raise inside the loop body). -/
theorem buildRows_error_eq (st : PyVal) :
    ∀ (states : List PyVal) (e : PyErr),
      buildRows st states = Except.error e → e = PyErr.attributeError := by
  intro states
  induction states with
  | nil => intro e h; simp [buildRows] at h
  | cons s rest ih =>
    intro e h
    cases s with
    | list l =>
      by_cases hl : l.length < 17
      · rw [buildRows_skip st (PyVal.list l) rest (by simp [recordOk]; omega)] at h
        exact ih e h
      · rw [buildRows_accept st l rest hl] at h
        cases hn : normalizeRecord st l with
        | error e2 =>
          rw [hn, bindErr] at h
          simp at h
          exact h ▸ normalizeRecord_error_eq st l e2 hn
        | ok row0 =>
          rw [hn, bindOk] at h
          cases hb : buildRows st rest with
          | error e2 =>
            rw [hb, bindErr] at h
            simp at h
            exact h ▸ ih e2 hb
          | ok rows0 => rw [hb, bindOk, pureOk] at h; simp at h
    | none => rw [buildRows_skip st PyVal.none rest rfl] at h; exact ih e h
    | bool b => rw [buildRows_skip st (PyVal.bool b) rest rfl] at h; exact ih e h
    | int n => rw [buildRows_skip st (PyVal.int n) rest rfl] at h; exact ih e h
    | str s2 => rw [buildRows_skip st (PyVal.str s2) rest rfl] at h; exact ih e h
    | float q => rw [buildRows_skip st (PyVal.float q) rest rfl] at h; exact ih e h

/-- The number of rows a successful build produces is exactly the
number of records passing the acceptance test. -/
theorem buildRows_ok_length (st : PyVal) :
    ∀ (states : List PyVal) (rows : List (List PyVal)),
      buildRows st states = Except.ok rows →
      rows.length = states.countP recordOk := by
  intro states
  induction states with
  | nil =>
    intro rows h
    simp [buildRows] at h
    simp [← h]
  | cons s rest ih =>
    intro rows h
    by_cases hs : recordOk s = true
    · obtain ⟨l, rfl⟩ : ∃ l, s = PyVal.list l := by
        cases s <;> simp_all [recordOk]
      have hl : ¬ l.length < 17 := by
        simp [recordOk] at hs
        omega
      rw [buildRows_accept st l rest hl] at h
      cases hn : normalizeRecord st l with
      | error e2 => rw [hn, bindErr] at h; simp at h
      | ok row0 =>
        rw [hn, bindOk] at h
        cases hb : buildRows st rest with
        | error e2 => rw [hb, bindErr] at h; simp at h
        | ok rows0 =>
          rw [hb, bindOk, pureOk] at h
          simp at h
          rw [← h, List.countP_cons, hs]
          simp [ih rows0 hb]
    · have hs2 : recordOk s = false := by simpa using hs
      rw [buildRows_skip st s rest hs2] at h
      rw [List.countP_cons, hs2]
      simp [ih rows h]

/-- All-malformed batches build no rows at all. -/
theorem buildRows_all_skip (st : PyVal) :
    ∀ (states : List PyVal),
      (∀ s ∈ states, recordOk s = false) →
      buildRows st states = Except.ok [] := by
  intro states
  induction states with
  | nil => intro _; rfl
  | cons s rest ih =>
    intro hbad
    rw [buildRows_skip st s rest (hbad s (by simp))]
    exact ih fun s2 hs2 => hbad s2 (by simp [hs2])

/-- Every row a successful build produces is the normalization of some
accepted raw record. -/
theorem mem_buildRows (st : PyVal) :
    ∀ (states : List PyVal) (rows : List (List PyVal)),
      buildRows st states = Except.ok rows →
      ∀ row ∈ rows, ∃ l : List PyVal,
        17 ≤ l.length ∧ normalizeRecord st l = Except.ok row := by
  intro states
  induction states with
  | nil =>
    intro rows h
    simp [buildRows] at h
    subst h
    simp
  | cons s rest ih =>
    intro rows h
    by_cases hs : recordOk s = true
    · obtain ⟨l, rfl⟩ : ∃ l, s = PyVal.list l := by
        cases s <;> simp_all [recordOk]
      have hl : ¬ l.length < 17 := by
        simp [recordOk] at hs
        omega
      rw [buildRows_accept st l rest hl] at h
      cases hn : normalizeRecord st l with
      | error e2 => rw [hn, bindErr] at h; simp at h
      | ok row0 =>
        rw [hn, bindOk] at h
        cases hb : buildRows st rest with
        | error e2 => rw [hb, bindErr] at h; simp at h
        | ok rows0 =>
          rw [hb, bindOk, pureOk] at h
          simp at h
          intro row hrow
          rw [← h] at hrow
          rcases List.mem_cons.mp hrow with hr | hr
          · exact ⟨l, by omega, hr ▸ hn⟩
          · exact ih rows0 hb row hr
    · have hs2 : recordOk s = false := by simpa using hs
      rw [buildRows_skip st s rest hs2] at h
      exact ih rows h

/-- An invalid timestamp makes `insert_states` raise `ValueError`
without touching the store. -/
theorem insert_states_invalid (db : DB) (st : PyVal) (states : List PyVal)
    (h : (st.isNone || !st.isInstInt) = true) :
    insert_states db st states = (db, Except.error PyErr.valueError) := by
  simp [insert_states, h]

/-- With a valid timestamp, an empty batch reads the current count and
writes nothing. -/
theorem insert_states_empty (db : DB) (st : PyVal)
    (h : (st.isNone || !st.isInstInt) = false) :
    insert_states db st [] = (db, Except.ok db.states_raw.length) := by
  simp [insert_states, h]

/-- With a valid timestamp and a non-empty batch whose row-building
succeeds, `insert_states` appends the built rows and returns the new
total. -/
theorem insert_states_ok_rows (db : DB) (st : PyVal) (states : List PyVal)
    (rows : List (List PyVal))
    (hv : (st.isNone || !st.isInstInt) = false)
    (hne : states.isEmpty = false)
    (hb : buildRows st states = Except.ok rows) :
    insert_states db st states =
      (⟨db.states_raw ++ rows⟩, Except.ok (db.states_raw ++ rows).length) := by
  simp [insert_states, hv, hne, hb]

/-- With a valid timestamp and a non-empty batch whose row-building
raises, the exception propagates and the store is untouched. -/
theorem insert_states_err (db : DB) (st : PyVal) (states : List PyVal)
    (e : PyErr)
    (hv : (st.isNone || !st.isInstInt) = false)
    (hne : states.isEmpty = false)
    (hb : buildRows st states = Except.error e) :
    insert_states db st states = (db, Except.error e) := by
  simp [insert_states, hv, hne, hb]

/-! Concrete sample data used by the witnesses. -/

/-- A 17-element raw record of sentinel values (index 12 is the dropped
field). -/
def sampleRec : List PyVal :=
  [PyVal.int 90, PyVal.none, PyVal.int 92, PyVal.int 93, PyVal.int 94,
   PyVal.float 95, PyVal.float 96, PyVal.float 97, PyVal.bool true,
   PyVal.float 99, PyVal.float 100, PyVal.float 101, PyVal.int 102,
   PyVal.float 103, PyVal.int 104, PyVal.bool false, PyVal.int 105]

/-- The normalized row `insert_states` builds from `sampleRec` with
snapshot time 5. -/
def sampleRow : List PyVal :=
  [PyVal.int 5, PyVal.int 90, PyVal.none, PyVal.int 92, PyVal.int 93,
   PyVal.int 94, PyVal.float 95, PyVal.float 96, PyVal.float 97,
   PyVal.bool true, PyVal.float 99, PyVal.float 100, PyVal.float 101,
   PyVal.float 103, PyVal.int 104, PyVal.bool false, PyVal.int 105]

/-- Ten raw records of which three are malformed (a 1-element list, a
non-list, an empty list). -/
def batch10 : List PyVal :=
  [PyVal.list sampleRec, PyVal.list sampleRec, PyVal.list sampleRec,
   PyVal.list sampleRec, PyVal.list [PyVal.int 1], PyVal.none, PyVal.list [],
   PyVal.list sampleRec, PyVal.list sampleRec, PyVal.list sampleRec]

/-! The claims about the record normalizer and batch writer. -/

/-- Claim C1: for every raw record accepted by the normalizer (a list
of at least 17 elements) and valid snapshot time, the normalized row
has exactly 17 fields in the fixed positional order — snapshot time
first, raw indices 0–11 next (callsign and on_ground transformed), raw
index 12 omitted entirely, and raw indices 13–16 mapped to
geo_altitude, squawk, spi, position_source. -/
theorem C1_positional_mapping (st : PyVal) (s row : List PyVal)
    (_hlen : 17 ≤ s.length) (h : normalizeRecord st s = Except.ok row) :
    row.length = 17 ∧
    (∃ c, normCallsign (pyGet s 1) = Except.ok c ∧
       row = [st, pyGet s 0, c, pyGet s 2, pyGet s 3, pyGet s 4, pyGet s 5,
              pyGet s 6, pyGet s 7, normBool (pyGet s 8), pyGet s 9,
              pyGet s 10, pyGet s 11, pyGet s 13, pyGet s 14,
              normBool (pyGet s 15), pyGet s 16]) ∧
    ∀ v : PyVal, normalizeRecord st (List.set s 12 v) = Except.ok row := by
  obtain ⟨c, hc, hrow⟩ := normalizeRecord_ok_elim st s row h
  exact ⟨by rw [hrow]; rfl, ⟨c, hc, hrow⟩,
    fun v => (normalizeRecord_set12 st s v).trans h⟩

theorem C1_witness :
    sampleRow.length = 17 ∧
    normalizeRecord (PyVal.int 5) (List.set sampleRec 12 (PyVal.int 1000)) =
      Except.ok sampleRow := by
  obtain ⟨h1, -, h3⟩ :=
    C1_positional_mapping (PyVal.int 5) sampleRec sampleRow (by decide) rfl
  exact ⟨h1, h3 (PyVal.int 1000)⟩

/-- Claim C2: `insert_states` raises `ValueError` exactly when the
snapshot time is `None` or not an integer; the raise happens before any
write (the store is returned unchanged); with a valid integer timestamp
and an empty batch the call succeeds with the current row count. -/
theorem C2_timestamp_validation (db : DB) (st : PyVal) (states : List PyVal) :
    ((insert_states db st states).2 = Except.error PyErr.valueError ↔
       (st.isNone || !st.isInstInt) = true) ∧
    ((st.isNone || !st.isInstInt) = true →
       insert_states db st states = (db, Except.error PyErr.valueError)) ∧
    ((st.isNone || !st.isInstInt) = false →
       insert_states db st [] = (db, Except.ok db.states_raw.length)) := by
  refine ⟨⟨fun hL => ?_, fun hR => by rw [insert_states_invalid db st states hR]⟩,
    fun hR => insert_states_invalid db st states hR,
    fun hv => insert_states_empty db st hv⟩
  by_cases hcond : (st.isNone || !st.isInstInt) = true
  · exact hcond
  · exfalso
    have hv : (st.isNone || !st.isInstInt) = false := by simpa using hcond
    cases states with
    | nil =>
      rw [insert_states_empty db st hv] at hL
      simp at hL
    | cons a rest =>
      cases hb : buildRows st (a :: rest) with
      | error e =>
        rw [insert_states_err db st (a :: rest) e hv rfl hb] at hL
        simp at hL
        rw [buildRows_error_eq st (a :: rest) e hb] at hL
        simp at hL
      | ok rows =>
        rw [insert_states_ok_rows db st (a :: rest) rows hv rfl hb] at hL
        simp at hL

theorem C2_witness :
    insert_states ⟨[]⟩ PyVal.none [] = (⟨[]⟩, Except.error PyErr.valueError) ∧
    insert_states ⟨[]⟩ (PyVal.int 5) [] = (⟨[]⟩, Except.ok 0) :=
  ⟨(C2_timestamp_validation ⟨[]⟩ PyVal.none []).2.1 rfl,
   (C2_timestamp_validation ⟨[]⟩ (PyVal.int 5) []).2.2 rfl⟩

/-- Claim C3: with a valid timestamp, a record is accepted exactly when
it is a list of at least 17 elements — the number of normalized rows is
the number of such records, a malformed record is skipped without
raising, and the accepted rows are what the writer appends. -/
theorem C3_malformed_tolerance (st : PyVal) (states : List PyVal)
    (rows : List (List PyVal)) (h : buildRows st states = Except.ok rows) :
    rows.length = states.countP recordOk ∧
    (∀ (s : PyVal) (rest : List PyVal), recordOk s = false →
       buildRows st (s :: rest) = buildRows st rest) ∧
    ∀ db : DB, (st.isNone || !st.isInstInt) = false → states ≠ [] →
      insert_states db st states =
        (⟨db.states_raw ++ rows⟩,
         Except.ok (db.states_raw.length + rows.length)) := by
  refine ⟨buildRows_ok_length st states rows h,
    fun s rest hs => buildRows_skip st s rest hs,
    fun db hv hne => ?_⟩
  cases states with
  | nil => exact absurd rfl hne
  | cons a rest =>
    rw [insert_states_ok_rows db st (a :: rest) rows hv rfl h]
    simp

theorem C3_witness :
    (7 : Nat) = batch10.countP recordOk ∧
    insert_states ⟨[]⟩ (PyVal.int 5) batch10 =
      (⟨List.replicate 7 sampleRow⟩, Except.ok 7) := by
  obtain ⟨h1, -, h3⟩ :=
    C3_malformed_tolerance (PyVal.int 5) batch10 (List.replicate 7 sampleRow) rfl
  exact ⟨h1, h3 ⟨[]⟩ rfl (by simp [batch10])⟩

/-- Claim C4: the on_ground field (raw index 8) and the spi field (raw
index 15) are tri-state: a raw `None` stays `None`, and any other raw
value is coerced to its boolean truthiness. -/
theorem C4_tri_state_booleans (st : PyVal) (s row : List PyVal)
    (h : normalizeRecord st s = Except.ok row) :
    pyGet row 9 = normBool (pyGet s 8) ∧
    pyGet row 15 = normBool (pyGet s 15) ∧
    normBool PyVal.none = PyVal.none ∧
    ∀ v : PyVal, v.isNone = false → normBool v = PyVal.bool v.truthy := by
  obtain ⟨c, hc, hrow⟩ := normalizeRecord_ok_elim st s row h
  subst hrow
  refine ⟨rfl, rfl, rfl, fun v hv => ?_⟩
  cases v <;> simp_all [normBool, PyVal.isNone]

theorem C4_witness :
    pyGet sampleRow 9 = normBool (pyGet sampleRec 8) ∧
    pyGet sampleRow 15 = normBool (pyGet sampleRec 15) ∧
    normBool PyVal.none = PyVal.none ∧
    normBool (PyVal.int 0) = PyVal.bool false ∧
    normBool (PyVal.int 3) = PyVal.bool true := by
  obtain ⟨h1, h2, h3, h4⟩ :=
    C4_tri_state_booleans (PyVal.int 5) sampleRec sampleRow rfl
  exact ⟨h1, h2, h3, h4 (PyVal.int 0) rfl, h4 (PyVal.int 3) rfl⟩

/-- Claim C6: with a valid timestamp, inserting an empty states list
performs no write — the store is returned unchanged, the current total
row count is reported, and no error is raised. -/
theorem C6_empty_insert_noop (db : DB) (st : PyVal)
    (hv : (st.isNone || !st.isInstInt) = false) :
    insert_states db st [] = (db, Except.ok db.states_raw.length) :=
  insert_states_empty db st hv

theorem C6_witness :
    insert_states ⟨[sampleRow]⟩ (PyVal.int 7) [] =
      (⟨[sampleRow]⟩, Except.ok 1) :=
  C6_empty_insert_noop ⟨[sampleRow]⟩ (PyVal.int 7) rfl

/-- The row invariant of the ingestion table: a persisted row has all
17 columns present positionally and a non-null integer snapshot time in
its first column. -/
def rowInv (row : List PyVal) : Prop :=
  row.length = 17 ∧ (pyGet row 0).isNone = false ∧ (pyGet row 0).isInstInt = true

/-- Claim C8: whatever `insert_states` does, every row of the resulting
store satisfies the row invariant (17 columns, non-null integer
snapshot time) provided the rows already present did, and every newly
persisted row carries the batch's shared snapshot time. -/
theorem C8_row_invariant (db : DB) (st : PyVal) (states : List PyVal)
    (db2 : DB) (res : Except PyErr Nat)
    (h : insert_states db st states = (db2, res))
    (hinv : ∀ row ∈ db.states_raw, rowInv row) :
    ∀ row ∈ db2.states_raw,
      rowInv row ∧ (row ∈ db.states_raw ∨ pyGet row 0 = st) := by
  by_cases hcond : (st.isNone || !st.isInstInt) = true
  · rw [insert_states_invalid db st states hcond] at h
    have hdb : db2 = db := by injection h with h1 _; exact h1.symm
    subst hdb
    intro row hrow
    exact ⟨hinv row hrow, Or.inl hrow⟩
  · have hv : (st.isNone || !st.isInstInt) = false := by simpa using hcond
    have hvni : st.isNone = false ∧ st.isInstInt = true := by
      constructor <;> [skip; skip] <;> revert hv <;> cases hn : st.isNone <;>
        cases hi : st.isInstInt <;> simp
    cases states with
    | nil =>
      rw [insert_states_empty db st hv] at h
      have hdb : db2 = db := by injection h with h1 _; exact h1.symm
      subst hdb
      intro row hrow
      exact ⟨hinv row hrow, Or.inl hrow⟩
    | cons a rest =>
      cases hb : buildRows st (a :: rest) with
      | error e =>
        rw [insert_states_err db st (a :: rest) e hv rfl hb] at h
        have hdb : db2 = db := by injection h with h1 _; exact h1.symm
        subst hdb
        intro row hrow
        exact ⟨hinv row hrow, Or.inl hrow⟩
      | ok rows =>
        rw [insert_states_ok_rows db st (a :: rest) rows hv rfl hb] at h
        have hdb : db2 = ⟨db.states_raw ++ rows⟩ := by
          injection h with h1 _; exact h1.symm
        subst hdb
        intro row hrow
        rcases List.mem_append.mp hrow with hr | hr
        · exact ⟨hinv row hr, Or.inl hr⟩
        · obtain ⟨l, _, hn⟩ := mem_buildRows st (a :: rest) rows hb row hr
          obtain ⟨c, -, hrow2⟩ := normalizeRecord_ok_elim st l row hn
          subst hrow2
          exact ⟨⟨rfl, hvni.1, hvni.2⟩, Or.inr rfl⟩

theorem C8_witness :
    rowInv sampleRow ∧
    (sampleRow ∈ ([] : List (List PyVal)) ∨ pyGet sampleRow 0 = PyVal.int 5) := by
  have h := C8_row_invariant ⟨[]⟩ (PyVal.int 5) [PyVal.list sampleRec]
    ⟨[sampleRow]⟩ (Except.ok 1) rfl (by simp)
  exact h sampleRow (by simp)

/-- Claim C10: a batch with a valid timestamp whose records are all
malformed does not raise: the bulk insert receives an empty row set,
the store is unchanged, and the current total row count is returned. -/
theorem C10_all_malformed_noop (db : DB) (st : PyVal) (states : List PyVal)
    (hv : (st.isNone || !st.isInstInt) = false)
    (hne : states ≠ [])
    (hbad : ∀ s ∈ states, recordOk s = false) :
    buildRows st states = Except.ok [] ∧
    insert_states db st states = (db, Except.ok db.states_raw.length) := by
  have hb := buildRows_all_skip st states hbad
  refine ⟨hb, ?_⟩
  cases states with
  | nil => exact absurd rfl hne
  | cons a rest =>
    rw [insert_states_ok_rows db st (a :: rest) [] hv rfl hb]
    simp

theorem C10_witness :
    buildRows (PyVal.int 5) [PyVal.none, PyVal.list []] = Except.ok [] ∧
    insert_states ⟨[sampleRow]⟩ (PyVal.int 5) [PyVal.none, PyVal.list []] =
      (⟨[sampleRow]⟩, Except.ok 1) :=
  C10_all_malformed_noop ⟨[sampleRow]⟩ (PyVal.int 5)
    [PyVal.none, PyVal.list []] rfl (by simp) (by decide)

/-! The loop controller. -/

/-- One step of the loop, unfolded. -/
theorem runIdx_cons (fetch : Nat → Except PyErr (PyVal × List PyVal))
    (num i : Nat) (rest : List Nat) (db : DB) (t s : Nat) :
    runIdx fetch num (i :: rest) db t s =
      match fetch i with
      | .error e => (db, Except.error e)
      | .ok (stt, states) =>
        match insert_states db stt states with
        | (db1, .error e) => (db1, Except.error e)
        | (db1, .ok t1) =>
          runIdx fetch num rest db1 t1 (if i < num - 1 then s + 1 else s) := rfl

/-- A fetch failure at the head cycle terminates the loop at once with
the store unchanged, regardless of the remaining cycles. -/
theorem runIdx_error_head (fetch : Nat → Except PyErr (PyVal × List PyVal))
    (num i : Nat) (rest : List Nat) (db : DB) (t s : Nat) (e : PyErr)
    (hf : fetch i = Except.error e) :
    runIdx fetch num (i :: rest) db t s = (db, Except.error e) := by
  rw [runIdx_cons, hf]

/-- Successful cycles compose: if the loop over a prefix of the cycle
indices reaches a state, the full loop continues from that state. -/
theorem runIdx_append_ok (fetch : Nat → Except PyErr (PyVal × List PyVal))
    (num : Nat) (l1 l2 : List Nat) (db db1 : DB) (t s t1 s1 : Nat)
    (h : runIdx fetch num l1 db t s = (db1, Except.ok (t1, s1))) :
    runIdx fetch num (l1 ++ l2) db t s = runIdx fetch num l2 db1 t1 s1 := by
  induction l1 generalizing db t s with
  | nil =>
    have h2 : (db, Except.ok (ε := PyErr) (t, s)) = (db1, Except.ok (t1, s1)) := h
    injection h2 with ha hb
    injection hb with hc
    injection hc with hd he
    subst ha; subst hd; subst he
    rfl
  | cons i rest ih =>
    rw [List.cons_append]
    rw [runIdx_cons] at h ⊢
    split at h
    · exact absurd h (by simp)
    · split at h
      · exact absurd h (by simp)
      · exact ih _ _ _ h

/-- Splitting the cycle index list `range num` at a cycle `k < num`. -/
theorem range_split (k num : Nat) (h : k < num) :
    List.range num = List.range' 0 k ++ k :: List.range' (k + 1) (num - k - 1) := by
  rw [List.range_eq_range' num]
  obtain ⟨j, hj⟩ : ∃ j, num - k = j + 1 := ⟨num - k - 1, by omega⟩
  have h2 : num = k + (j + 1) := by omega
  have h4 : num - k - 1 = j := by omega
  rw [h4, h2, Nat.add_comm k (j + 1)]
  have h3 := List.range'_append 0 k (j + 1) 1
  rw [Nat.one_mul] at h3
  rw [← h3]
  simp [List.range'_succ]

/-- Stub fetch outcomes: cycles 0 and 2 return five valid records each,
cycle 1 returns none. -/
def stubFetch553 : Nat → Except PyErr (PyVal × List PyVal) :=
  fun i =>
    if i = 0 then Except.ok (PyVal.int 101, List.replicate 5 (PyVal.list sampleRec))
    else if i = 1 then Except.ok (PyVal.int 102, [])
    else Except.ok (PyVal.int 103, List.replicate 5 (PyVal.list sampleRec))

/-- Stub fetch outcomes: cycle 0 succeeds, every later cycle fails with
a network error. -/
def stubFetchFail : Nat → Except PyErr (PyVal × List PyVal) :=
  fun i => if i = 0 then Except.ok (PyVal.int 7, []) else Except.error PyErr.requestError

/-- Claim C5: running the loop for 3 cycles against stub fetch results
of 5, 0 and 5 valid records reports a final total equal to the initial
(post-initialization) row count plus 10, stores exactly that many rows,
and invokes the inter-cycle delay exactly 2 times — never after the
last cycle. -/
theorem C5_multi_cycle_accounting (db0 : DB) (slp : Nat) :
    (fetch_many_opensky_snapshots db0 stubFetch553 3 slp).2 =
      Except.ok ((init_db db0).states_raw.length + 10, 2) ∧
    (fetch_many_opensky_snapshots db0 stubFetch553 3 slp).1.states_raw.length =
      (init_db db0).states_raw.length + 10 :=
  ⟨rfl, rfl⟩

/-- Claim C7: if the fetch of cycle `k < num` raises, and the cycles
before `k` all succeeded leaving store `dbk`, the whole flow stops
there: the error propagates unmodified, the store stays exactly `dbk`
(no further rows), and the result does not depend on what the fetch
would have returned for any later cycle. -/
theorem C7_fail_fast (fetch : Nat → Except PyErr (PyVal × List PyVal))
    (num k : Nat) (e : PyErr) (slp : Nat) (db0 dbk : DB) (t s : Nat)
    (hk : k < num) (hf : fetch k = Except.error e)
    (hpre : runIdx fetch num (List.range' 0 k) (init_db db0) 0 0 =
      (dbk, Except.ok (t, s))) :
    fetch_many_opensky_snapshots db0 fetch num slp = (dbk, Except.error e) := by
  unfold fetch_many_opensky_snapshots
  rw [range_split k num hk,
      runIdx_append_ok fetch num (List.range' 0 k) _ _ _ _ _ _ _ hpre,
      runIdx_error_head fetch num k _ dbk t s e hf]

theorem C7_witness :
    fetch_many_opensky_snapshots ⟨[]⟩ stubFetchFail 5 9 =
      (⟨[]⟩, Except.error PyErr.requestError) :=
  C7_fail_fast stubFetchFail 5 1 PyErr.requestError 9 ⟨[]⟩ ⟨[]⟩ 0 1
    (by decide) rfl rfl

/-- Claim C9: zero cycles is valid — the run only initializes: the
store is reset to empty, no fetch or insert or delay happens (the
result does not depend on the fetch at all, and the delay count is 0),
and the reported final total is the store's row count, 0. -/
theorem C9_zero_cycles (db0 : DB) (slp : Nat)
    (fetch : Nat → Except PyErr (PyVal × List PyVal)) :
    fetch_many_opensky_snapshots db0 fetch 0 slp =
      (init_db db0, Except.ok (0, 0)) ∧
    (init_db db0).states_raw = [] :=
  ⟨rfl, rfl⟩

end OpenSky
